import Mathlib

/-!
Verification of the session-lifecycle and recording core of the
devolutions-gateway repository (files `recording.rs`, `subscriber.rs`,
`lib.rs`), by a shallow embedding of the relevant Rust code into Lean.

UUIDs are modelled as `Nat` (Rust `Uuid` ordering is the numeric order on
the 128-bit value), unix timestamps as `Int`, paths as `String`.
`HashMap` is modelled as an association list, `HashSet` as a
duplicate-free list; the filesystem is modelled as a record of existing
directories and manifest files.  Wall-clock reads
(`OffsetDateTime::now_utc().unix_timestamp()`, `Instant::now()`,
`Utc::now()`) become explicit `now` parameters.
-/

namespace Gateway

/-- Model of `Uuid`. -/
abbrev Uuid := Nat

/-- Rust constant `DISCONNECTED_TTL_SECS: i64 = 10` from recording.rs. -/
def DISCONNECTED_TTL_SECS : Int := 10

/-- Rust `struct JrecFile { file_name, start_time, duration }` from recording.rs. -/
structure JrecFile where
  file_name : String
  start_time : Int
  duration : Int
  deriving Repr, DecidableEq

/-- Rust `struct JrecManifest { session_id, start_time, duration, files }` from recording.rs. -/
structure JrecManifest where
  session_id : Uuid
  start_time : Int
  duration : Int
  files : List JrecFile
  deriving Repr, DecidableEq

/-- Rust `enum OnGoingRecordingState`, variants `Connected` and `LastSeen { timestamp }`. -/
inductive OnGoingRecordingState where
  | Connected : OnGoingRecordingState
  | LastSeen : (timestamp : Int) → OnGoingRecordingState
  deriving Repr, DecidableEq

/-- Rust `struct OnGoingRecording { state, manifest, manifest_path }`. -/
structure OnGoingRecording where
  state : OnGoingRecordingState
  manifest : JrecManifest
  manifest_path : String
  deriving Repr, DecidableEq

/-- Association-list model of `HashMap<Uuid, OnGoingRecording>`: lookup. -/
def mapFind (m : List (Uuid × OnGoingRecording)) (k : Uuid) : Option OnGoingRecording :=
  match m with
  | [] => none
  | (k', v) :: rest => if k' = k then some v else mapFind rest k

/-- Model of `HashMap::remove`. -/
def mapErase (m : List (Uuid × OnGoingRecording)) (k : Uuid) : List (Uuid × OnGoingRecording) :=
  m.filter (fun kv => kv.1 ≠ k)

/-- Model of `HashMap::insert` (replaces any existing binding for the key). -/
def mapInsert (m : List (Uuid × OnGoingRecording)) (k : Uuid) (v : OnGoingRecording) :
    List (Uuid × OnGoingRecording) :=
  (k, v) :: mapErase m k

/-- Model of `ActiveRecordings::insert` (`HashSet::insert` followed by `len`):
returns the updated set and its new size. -/
def activeInsert (s : List Uuid) (id : Uuid) : List Uuid × Nat :=
  let s' := if id ∈ s then s else id :: s
  (s', s'.length)

/-- Model of `ActiveRecordings::remove` (`HashSet::remove`). -/
def activeRemove (s : List Uuid) (id : Uuid) : List Uuid :=
  s.filter (fun x => x ≠ id)

/-- Model of `ActiveRecordings::contains`. -/
def activeContains (s : List Uuid) (id : Uuid) : Bool :=
  id ∈ s

/-- In-memory state of `RecordingManagerTask` together with the
`ActiveRecordings` set shared through `rx.active_recordings`. -/
structure ManagerState where
  ongoing_recordings : List (Uuid × OnGoingRecording)
  active_recordings : List Uuid
  recordings_path : String
  deriving Repr, DecidableEq

/-- Model of the filesystem as seen by the recording manager: the set of
existing directories and the manifest stored at each manifest path.
Parsing and pretty-printing of manifest JSON is abstracted away: a stored
manifest is kept structurally (`JrecManifest::save_to_file` / `read_from_file`
round-trip through serde). -/
structure Disk where
  dirs : List String
  files : List (String × JrecManifest)
  deriving Repr, DecidableEq

/-- Model of `JrecManifest::read_from_file`: `none` models a read or parse failure. -/
def readManifest (d : Disk) (path : String) : Option JrecManifest :=
  match d.files.find? (fun pm => pm.1 = path) with
  | some pm => some pm.2
  | none => none

/-- Model of `JrecManifest::save_to_file`: overwrites the file at `path`. -/
def saveManifest (d : Disk) (path : String) (m : JrecManifest) : Disk :=
  { d with files := (path, m) :: d.files.filter (fun pm => pm.1 = path → False) }

/-- Model of `fs::create_dir_all`. -/
def createDir (d : Disk) (path : String) : Disk :=
  { d with dirs := path :: d.dirs }

/-- Path `self.recordings_path.join(id.to_string())`. -/
def recordingPath (root : String) (id : Uuid) : String :=
  root ++ "/" ++ toString id

/-- Path `recording_path.join("recording.json")`. -/
def manifestPath (root : String) (id : Uuid) : String :=
  recordingPath root id ++ "/recording.json"

/-- File name `recording-{next_file_idx}.{file_type}` as formatted in `handle_connect`. -/
def recordingFileName (idx : Nat) (ext : String) : String :=
  "recording-" ++ toString idx ++ "." ++ ext


/-- Returns `true` exactly on the `Connected` state
(Rust `matches!(state, OnGoingRecordingState::Connected)`). -/
def isConnected : OnGoingRecordingState → Bool
  | .Connected => true
  | .LastSeen _ => false

/-- Tail of `RecordingManagerTask::handle_connect` after the manifest has been
produced: insert the id into `ActiveRecordings`, insert the `Connected` entry
into `ongoing_recordings`, return the recording file path.  (The
`LENGTH_WARNING_THRESHOLD` sanity check only logs a warning and changes no
state, so it is omitted.) -/
def finishConnect (st : ManagerState) (disk : Disk) (id : Uuid) (manifest : JrecManifest)
    (manifest_path recording_file : String) : Except String (ManagerState × Disk × String) :=
  let active := (activeInsert st.active_recordings id).1
  let ongoing := mapInsert st.ongoing_recordings id ⟨.Connected, manifest, manifest_path⟩
  .ok ({ st with active_recordings := active, ongoing_recordings := ongoing }, disk, recording_file)

/-- Model of `RecordingManagerTask::handle_connect` (recording.rs:324-412).
The wall-clock reads `OffsetDateTime::now_utc().unix_timestamp()` become the
explicit parameter `now`; I/O failures of directory creation and manifest
writing are not modelled (the disk operations are total), while a manifest
read failure is (`readManifest` returning `none`). -/
def handle_connect (st : ManagerState) (disk : Disk) (id : Uuid) (file_type : String)
    (now : Int) : Except String (ManagerState × Disk × String) :=
  if ((mapFind st.ongoing_recordings id).map (fun o => isConnected o.state)).getD false then
    .error "concurrent recording for the same session is not supported"
  else
    let recording_path := recordingPath st.recordings_path id
    let manifest_path := manifestPath st.recordings_path id
    if recording_path ∈ disk.dirs then
      match readManifest disk manifest_path with
      | none => .error "read manifest from disk"
      | some existing_manifest =>
        let next_file_idx := existing_manifest.files.length
        let file_name := recordingFileName next_file_idx file_type
        let recording_file := recording_path ++ "/" ++ file_name
        let manifest :=
          { existing_manifest with files := existing_manifest.files ++ [⟨file_name, now, 0⟩] }
        finishConnect st (saveManifest disk manifest_path manifest) id manifest
          manifest_path recording_file
    else
      let disk1 := createDir disk recording_path
      let file_name := recordingFileName 0 file_type
      let recording_file := recording_path ++ "/" ++ file_name
      let first_file : JrecFile := ⟨file_name, now, 0⟩
      let initial_manifest : JrecManifest := ⟨id, now, 0, [first_file]⟩
      finishConnect st (saveManifest disk1 manifest_path initial_manifest) id initial_manifest
        manifest_path recording_file

/-- Model of `RecordingManagerTask::handle_disconnect` (recording.rs:414-444).
The result is the updated state, the updated disk, and the error message if
any.  The state is threaded through even on the error paths because the Rust
code mutates the entry in place: in particular the entry state is set to
`LastSeen` *before* the `files.last_mut()` lookup, so on the (unreachable in
practice) empty-`files` path the state change survives the error. -/
def handle_disconnect (st : ManagerState) (disk : Disk) (id : Uuid) (now : Int) :
    ManagerState × Disk × Option String :=
  match mapFind st.ongoing_recordings id with
  | none => (st, disk, some ("unknown recording for ID " ++ toString id))
  | some ongoing =>
    if ¬ isConnected ongoing.state then
      (st, disk, some "a recording not connected cannot be disconnected (there is probably a bug)")
    else
      let end_time := now
      match ongoing.manifest.files.getLast? with
      | none =>
        ({ st with ongoing_recordings :=
            (mapInsert st.ongoing_recordings id
              ⟨.LastSeen end_time, ongoing.manifest, ongoing.manifest_path⟩) },
         disk, some "no recording file (this is a bug)")
      | some current_file =>
        let current_file := { current_file with duration := end_time - current_file.start_time }
        let manifest :=
          { ongoing.manifest with
            duration := end_time - ongoing.manifest.start_time,
            files := ongoing.manifest.files.dropLast ++ [current_file] }
        ({ st with ongoing_recordings :=
            (mapInsert st.ongoing_recordings id
              ⟨.LastSeen end_time, manifest, ongoing.manifest_path⟩) },
         saveManifest disk ongoing.manifest_path manifest, none)

/-- Model of `RecordingManagerTask::handle_remove` (recording.rs:446-465): an
eviction tick for `id` at wall-clock time `now`. -/
def handle_remove (st : ManagerState) (id : Uuid) (now : Int) : ManagerState :=
  match mapFind st.ongoing_recordings id with
  | none => st
  | some ongoing =>
    match ongoing.state with
    | .LastSeen timestamp =>
      if now ≥ timestamp + DISCONNECTED_TTL_SECS - 1 then
        { st with active_recordings := activeRemove st.active_recordings id,
                  ongoing_recordings := mapErase st.ongoing_recordings id }
      else st
    | .Connected => st

/-- Model of one iteration of the post-shutdown drain loop of
`recording_manager_task` (recording.rs:559-567) on a `Disconnect { id }`
message: run `handle_disconnect` (errors are only logged), then remove the id
from `ongoing_recordings`.  Note that `active_recordings` is not touched. -/
def drain_disconnect_step (st : ManagerState) (disk : Disk) (id : Uuid) (now : Int) :
    ManagerState × Disk :=
  let r := handle_disconnect st disk id now
  ({ r.1 with ongoing_recordings := mapErase r.1.ongoing_recordings id }, r.2.1)

/-- Rust `struct DisconnectedTtl { deadline, id }`; `tokio::time::Instant` is
modelled as a `Nat` (instants are totally ordered and compared with `Ord`),
and the `Uuid` field is spelled `Nat` (the same type as `Uuid`; Rust
`Uuid::cmp` is the numeric order on the 128-bit value). -/
structure DisconnectedTtl where
  deadline : Nat
  id : Nat
  deriving Repr, DecidableEq

/-- Model of `impl Ord for DisconnectedTtl` (recording.rs:299-307): the
deadline comparison is reversed (so the max-heap surfaces the earliest
deadline), and equal deadlines are compared by `Uuid::cmp` un-reversed. -/
def cmpDisconnectedTtl (a b : DisconnectedTtl) : Ordering :=
  match compare a.deadline b.deadline with
  | .lt => .gt
  | .eq => compare a.id b.id
  | .gt => .lt

/-- Model of `BinaryHeap::pop` on the `disconnected` heap: a `BinaryHeap`
pops a greatest element with respect to `Ord`, here computed as the maximum
of the list under `cmpDisconnectedTtl` (the first maximum when duplicated). -/
def heapPop (l : List DisconnectedTtl) : Option DisconnectedTtl :=
  match l with
  | [] => none
  | x :: rest =>
    some (rest.foldl (fun best y => if cmpDisconnectedTtl best y = .lt then y else best) x)


/-- The `JrecTokenClaims` fields used by `ClientPush::run` (only `jet_aid`). -/
structure JrecTokenClaims where
  jet_aid : Uuid
  deriving Repr, DecidableEq

/-- Observable actions performed by `ClientPush::run`, in order. -/
inductive RunEvent where
  | connectRequested : RunEvent
  | streamShutdown : RunEvent
  | fileOpened : RunEvent
  | disconnectRequested : RunEvent
  deriving Repr, DecidableEq

/-- Outcome of the `tokio::select!` race between `io::copy` and the shutdown
signal inside `ClientPush::run`. -/
inductive CopyOutcome where
  | finished : CopyOutcome
  | ioError : CopyOutcome
  | shutdownSignalled : CopyOutcome
  deriving Repr, DecidableEq

/-- Model of `ClientPush::run` (recording.rs:69-124), as the ordered list of
observable actions together with the success flag of the returned `Result`.
The environment is abstracted into parameters: `connectResult` is the reply of
the recording manager to `Connect` (`none` = error), `openOk` tells whether
opening the returned path succeeded, and `outcome` resolves the copy/shutdown
race.  Stream-shutdown calls themselves are assumed to succeed. -/
def clientPushRun (session_id : Uuid) (claims : JrecTokenClaims)
    (connectResult : Option String) (openOk : Bool) (outcome : CopyOutcome) :
    List RunEvent × Bool :=
  if session_id ≠ claims.jet_aid then
    ([], false)
  else
    match connectResult with
    | none =>
      ([.connectRequested, .streamShutdown], true)
    | some _recording_file =>
      let body : List RunEvent × Bool :=
        if openOk then
          match outcome with
          | .finished => ([.fileOpened], true)
          | .ioError => ([.fileOpened], false)
          | .shutdownSignalled => ([.fileOpened, .streamShutdown], true)
        else
          ([], false)
      (.connectRequested :: body.1 ++ [.disconnectRequested], body.2)

/-- Rust `struct SubscriberSessionInfo { association_id, start_timestamp }`
from subscriber.rs; `DateTime<Utc>` is modelled as an `Int`. -/
structure SubscriberSessionInfo where
  association_id : Uuid
  start_timestamp : Int
  deriving Repr, DecidableEq

/-- Minimal JSON value model for the serde-produced wire format. -/
inductive Json where
  | str : String → Json
  | obj : List (String × Json) → Json
  | arr : List Json → Json
  deriving Repr

/-- Keys of a JSON object (in serialization order). -/
def Json.keys : Json → List String
  | .obj fields => fields.map Prod.fst
  | _ => []

/-- Field lookup in a JSON object. -/
def Json.get : Json → String → Option Json
  | .obj fields, k =>
    match fields.find? (fun kv => kv.1 = k) with
    | some kv => some kv.2
    | none => none
  | _, _ => none

/-- Rendering of a `Uuid` value (exact text is irrelevant to the claims). -/
def renderUuid (u : Uuid) : String := toString u

/-- Rendering of a `DateTime<Utc>` value as RFC3339 text (the exact text is
irrelevant to the claims, which are about object keys and field sources). -/
def renderTimestamp (t : Int) : String := toString t

/-- Serde serialization of `SubscriberSessionInfo`.  The Rust struct derives
`Serialize` with no `#[serde(rename_all)]` attribute, so the keys are the
Rust field identifiers verbatim. -/
def serializeSessionInfo (s : SubscriberSessionInfo) : Json :=
  .obj [("association_id", .str (renderUuid s.association_id)),
        ("start_timestamp", .str (renderTimestamp s.start_timestamp))]

/-- Rust `enum MessageInner` from subscriber.rs. -/
inductive MessageInner where
  | SessionStarted : SubscriberSessionInfo → MessageInner
  | SessionEnded : SubscriberSessionInfo → MessageInner
  | SessionList : List SubscriberSessionInfo → MessageInner
  deriving Repr, DecidableEq

/-- Rust `struct Message { timestamp, inner }` from subscriber.rs. -/
structure Message where
  timestamp : Int
  inner : MessageInner
  deriving Repr, DecidableEq

/-- Model of `Message::session_started`: the message timestamp is the
session's `start_timestamp`. -/
def Message.session_started (session : SubscriberSessionInfo) : Message :=
  ⟨session.start_timestamp, .SessionStarted session⟩

/-- Model of `Message::session_ended`: `Utc::now()` becomes the explicit
parameter `now`. -/
def Message.session_ended (now : Int) (session : SubscriberSessionInfo) : Message :=
  ⟨now, .SessionEnded session⟩

/-- Model of `Message::session_list`: `Utc::now()` becomes the explicit
parameter `now`. -/
def Message.session_list (now : Int) (session_list : List SubscriberSessionInfo) : Message :=
  ⟨now, .SessionList session_list⟩

/-- Serde serialization of `MessageInner`: internally tagged with
`#[serde(tag = "kind")]` and per-variant renames; the payload key is the
Rust field identifier (`session` or `session_list`). -/
def serializeMessageInner : MessageInner → List (String × Json)
  | .SessionStarted s => [("kind", .str "session.started"), ("session", serializeSessionInfo s)]
  | .SessionEnded s => [("kind", .str "session.ended"), ("session", serializeSessionInfo s)]
  | .SessionList xs =>
    [("kind", .str "session.list"), ("session_list", .arr (xs.map serializeSessionInfo))]

/-- Serde serialization of `Message`: the `timestamp` field followed by the
`#[serde(flatten)]`-inlined fields of `inner`. -/
def serializeMessage (m : Message) : Json :=
  .obj (("timestamp", .str (renderTimestamp m.timestamp)) :: serializeMessageInner m.inner)

/-- Constant `RETRY_INITIAL_INTERVAL` of `send_message` (3 seconds). -/
def RETRY_INITIAL_INTERVAL : Nat := 3

/-- Constant `RETRY_MAX_ELAPSED_TIME` of `send_message` (3 minutes). -/
def RETRY_MAX_ELAPSED_TIME : Nat := 180

/-- Constant `RETRY_MULTIPLIER` of `send_message` (1.75, exactly 7/4). -/
def RETRY_MULTIPLIER : ℚ := 7 / 4

/-- Outcome of one HTTP POST attempt inside `send_message`: either the
request itself failed (network / IO error on send) or a response with the
given status code arrived. -/
inductive AttemptOutcome where
  | netError : AttemptOutcome
  | status : Nat → AttemptOutcome
  deriving Repr, DecidableEq

/-- Model of `backoff::Error<anyhow::Error>`: the error message together
with, for the transient variant, the `retry_after` field.  The crate's
`Error::transient` constructor sets `retry_after` to `None`. -/
inductive BackoffError where
  | permanent : String → BackoffError
  | transient : String → Option Nat → BackoffError
  deriving Repr, DecidableEq

/-- Model of the closure `op` in `send_message` (subscriber.rs:83-108):
classify one delivery attempt.  `none` is `Ok(())` (success). -/
def sendOp (outcome : AttemptOutcome) : Option BackoffError :=
  match outcome with
  | .netError => some (.permanent "Failed to post message at the subscriber URL")
  | .status code =>
    if 400 ≤ code ∧ code ≤ 499 then
      some (.permanent "Subscriber responded with a client error status")
    else if 500 ≤ code ∧ code ≤ 599 then
      some (.transient "Subscriber responded with a server error status" none)
    else
      none

/-- Record a sleep of `d` seconds in front of the delay trace of a finished
run. -/
def prependDelay (d : Nat) : Except String (List Nat) → Except String (List Nat)
  | .ok ds => .ok (d :: ds)
  | .error e => .error e

/-- Model of the retry loop of `send_message` (subscriber.rs:110-128).
`ops n` is the classified outcome of the `n`-th attempt; `backoff k` is the
`k`-th value returned by `ExponentialBackoff::next_backoff` (an oracle for
the randomized schedule; `none` once `RETRY_MAX_ELAPSED_TIME` is exceeded).
The result is `none` when `fuel` runs out, otherwise the list of sleep
durations followed by the final `Result`: `ok` on success, `error e` on a
permanent error or an exhausted backoff. -/
def sendLoop (ops : Nat → Option BackoffError) (backoff : Nat → Option Nat) :
    Nat → Nat → Nat → Option (Except String (List Nat))
  | _, _, 0 => none
  | attempt, bidx, fuel + 1 =>
    match ops attempt with
    | none => some (.ok [])
    | some (.permanent e) => some (.error e)
    | some (.transient e retry_after) =>
      match retry_after with
      | some d => (sendLoop ops backoff (attempt + 1) bidx fuel).map (prependDelay d)
      | none =>
        match backoff bidx with
        | some d => (sendLoop ops backoff (attempt + 1) (bidx + 1) fuel).map (prependDelay d)
        | none => some (.error e)

/-- Model of `send_message`: attempts are classified by `sendOp` and retried
through `sendLoop` with the backoff oracle. -/
def send_message (attempts : Nat → AttemptOutcome) (backoff : Nat → Option Nat) (fuel : Nat) :
    Option (Except String (List Nat)) :=
  sendLoop (fun n => sendOp (attempts n)) backoff 0 0 fuel


theorem mapErase_cons (a : Uuid) (v : OnGoingRecording) (rest : List (Uuid × OnGoingRecording))
    (k : Uuid) :
    mapErase ((a, v) :: rest) k = if a = k then mapErase rest k else (a, v) :: mapErase rest k := by
  simp only [mapErase, List.filter_cons]
  by_cases h : a = k <;> simp [h]

theorem mapFind_erase (m : List (Uuid × OnGoingRecording)) (k s : Uuid) :
    mapFind (mapErase m k) s = if s = k then none else mapFind m s := by
  induction m with
  | nil => simp [mapErase, mapFind]
  | cons kv rest ih =>
    obtain ⟨a, v⟩ := kv
    rw [mapErase_cons]
    by_cases hak : a = k
    · rw [if_pos hak, ih]
      subst hak
      by_cases has : s = a
      · simp [has]
      · have h2 : ¬ a = s := fun h => has h.symm
        simp [mapFind, has, h2]
    · rw [if_neg hak]
      by_cases has : a = s
      · subst has
        simp [mapFind, hak]
      · simp [mapFind, has, ih]

theorem mapFind_insert (m : List (Uuid × OnGoingRecording)) (k : Uuid) (v : OnGoingRecording)
    (s : Uuid) :
    mapFind (mapInsert m k v) s = if k = s then some v else mapFind m s := by
  by_cases h : k = s
  · simp [mapInsert, mapFind, h]
  · have h2 : ¬ s = k := fun hs => h hs.symm
    simp [mapInsert, mapFind, h, mapFind_erase, h2]

theorem mem_activeInsert (l : List Uuid) (id s : Uuid) :
    s ∈ (activeInsert l id).1 ↔ s = id ∨ s ∈ l := by
  by_cases h : id ∈ l
  · simp only [activeInsert, if_pos h]
    constructor
    · exact Or.inr
    · rintro (rfl | hs)
      · exact h
      · exact hs
  · simp [activeInsert, if_neg h]

theorem mem_activeRemove (l : List Uuid) (id s : Uuid) :
    s ∈ activeRemove l id ↔ s ∈ l ∧ s ≠ id := by
  simp [activeRemove]

/-- The denormalization invariant of the spec: an id is in the
`ActiveRecordings` set exactly when it is a key of `ongoing_recordings`. -/
def RecordingInv (st : ManagerState) : Prop :=
  ∀ s : Uuid, s ∈ st.active_recordings ↔ (mapFind st.ongoing_recordings s).isSome


theorem handle_disconnect_eq_none (st : ManagerState) (disk : Disk) (id : Uuid) (now : Int)
    (h : mapFind st.ongoing_recordings id = none) :
    handle_disconnect st disk id now =
      (st, disk, some ("unknown recording for ID " ++ toString id)) := by
  rw [handle_disconnect.eq_def, h]

theorem handle_disconnect_eq_notConnected (st : ManagerState) (disk : Disk) (id : Uuid)
    (now : Int) (o : OnGoingRecording)
    (h : mapFind st.ongoing_recordings id = some o) (hc : isConnected o.state = false) :
    handle_disconnect st disk id now =
      (st, disk,
       some "a recording not connected cannot be disconnected (there is probably a bug)") := by
  rw [handle_disconnect.eq_def, h]
  simp [hc]

theorem handle_disconnect_eq_emptyFiles (st : ManagerState) (disk : Disk) (id : Uuid)
    (now : Int) (o : OnGoingRecording)
    (h : mapFind st.ongoing_recordings id = some o) (hc : isConnected o.state = true)
    (hl : o.manifest.files.getLast? = none) :
    handle_disconnect st disk id now =
      ({ st with ongoing_recordings :=
          (mapInsert st.ongoing_recordings id
            ⟨.LastSeen now, o.manifest, o.manifest_path⟩) },
       disk, some "no recording file (this is a bug)") := by
  rw [handle_disconnect.eq_def, h]
  simp [hc, hl]

theorem handle_disconnect_eq_connected (st : ManagerState) (disk : Disk) (id : Uuid)
    (now : Int) (o : OnGoingRecording) (f : JrecFile)
    (h : mapFind st.ongoing_recordings id = some o) (hc : isConnected o.state = true)
    (hl : o.manifest.files.getLast? = some f) :
    handle_disconnect st disk id now =
      ({ st with ongoing_recordings :=
          (mapInsert st.ongoing_recordings id
            ⟨.LastSeen now,
             ⟨o.manifest.session_id, o.manifest.start_time, now - o.manifest.start_time,
              o.manifest.files.dropLast ++ [⟨f.file_name, f.start_time, now - f.start_time⟩]⟩,
             o.manifest_path⟩) },
       saveManifest disk o.manifest_path
         ⟨o.manifest.session_id, o.manifest.start_time, now - o.manifest.start_time,
          o.manifest.files.dropLast ++ [⟨f.file_name, f.start_time, now - f.start_time⟩]⟩,
       none) := by
  rw [handle_disconnect.eq_def, h]
  simp [hc, hl]

theorem handle_remove_eq_none (st : ManagerState) (id : Uuid) (now : Int)
    (h : mapFind st.ongoing_recordings id = none) :
    handle_remove st id now = st := by
  rw [handle_remove.eq_def, h]

theorem handle_remove_eq_connected (st : ManagerState) (id : Uuid) (now : Int)
    (o : OnGoingRecording)
    (h : mapFind st.ongoing_recordings id = some o) (hc : o.state = .Connected) :
    handle_remove st id now = st := by
  rw [handle_remove.eq_def, h]
  simp [hc]

theorem handle_remove_eq_expired (st : ManagerState) (id : Uuid) (now : Int)
    (o : OnGoingRecording) (ts : Int)
    (h : mapFind st.ongoing_recordings id = some o) (hs : o.state = .LastSeen ts)
    (ht : now ≥ ts + DISCONNECTED_TTL_SECS - 1) :
    handle_remove st id now =
      { st with active_recordings := activeRemove st.active_recordings id,
                ongoing_recordings := mapErase st.ongoing_recordings id } := by
  rw [handle_remove.eq_def, h]
  simp [hs, ht]

theorem handle_remove_eq_notExpired (st : ManagerState) (id : Uuid) (now : Int)
    (o : OnGoingRecording) (ts : Int)
    (h : mapFind st.ongoing_recordings id = some o) (hs : o.state = .LastSeen ts)
    (ht : ¬ now ≥ ts + DISCONNECTED_TTL_SECS - 1) :
    handle_remove st id now = st := by
  rw [handle_remove.eq_def, h]
  simp [hs, ht]

theorem handle_connect_eq_concurrent (st : ManagerState) (disk : Disk) (id : Uuid)
    (ft : String) (now : Int) (o : OnGoingRecording)
    (h : mapFind st.ongoing_recordings id = some o) (hc : isConnected o.state = true) :
    handle_connect st disk id ft now =
      .error "concurrent recording for the same session is not supported" := by
  rw [handle_connect, h]
  simp [hc]

theorem handle_connect_eq_existing (st : ManagerState) (disk : Disk) (id : Uuid)
    (ft : String) (now : Int) (m : JrecManifest)
    (hg : ((mapFind st.ongoing_recordings id).map (fun o => isConnected o.state)).getD false
            = false)
    (hdir : recordingPath st.recordings_path id ∈ disk.dirs)
    (hread : readManifest disk (manifestPath st.recordings_path id) = some m) :
    handle_connect st disk id ft now =
      .ok ({ st with
              active_recordings := (activeInsert st.active_recordings id).1,
              ongoing_recordings :=
                (mapInsert st.ongoing_recordings id
                  ⟨.Connected,
                   ⟨m.session_id, m.start_time, m.duration,
                    m.files ++ [⟨recordingFileName m.files.length ft, now, 0⟩]⟩,
                   manifestPath st.recordings_path id⟩) },
           saveManifest disk (manifestPath st.recordings_path id)
             ⟨m.session_id, m.start_time, m.duration,
              m.files ++ [⟨recordingFileName m.files.length ft, now, 0⟩]⟩,
           recordingPath st.recordings_path id ++ "/" ++ recordingFileName m.files.length ft) := by
  rw [handle_connect, hg]
  simp only [Bool.false_eq_true, if_false, if_pos hdir, hread, finishConnect]

theorem handle_connect_eq_readFail (st : ManagerState) (disk : Disk) (id : Uuid)
    (ft : String) (now : Int)
    (hg : ((mapFind st.ongoing_recordings id).map (fun o => isConnected o.state)).getD false
            = false)
    (hdir : recordingPath st.recordings_path id ∈ disk.dirs)
    (hread : readManifest disk (manifestPath st.recordings_path id) = none) :
    handle_connect st disk id ft now = .error "read manifest from disk" := by
  rw [handle_connect, hg]
  simp only [Bool.false_eq_true, if_false, if_pos hdir, hread]

theorem handle_connect_eq_fresh (st : ManagerState) (disk : Disk) (id : Uuid)
    (ft : String) (now : Int)
    (hg : ((mapFind st.ongoing_recordings id).map (fun o => isConnected o.state)).getD false
            = false)
    (hdir : recordingPath st.recordings_path id ∉ disk.dirs) :
    handle_connect st disk id ft now =
      .ok ({ st with
              active_recordings := (activeInsert st.active_recordings id).1,
              ongoing_recordings :=
                (mapInsert st.ongoing_recordings id
                  ⟨.Connected, ⟨id, now, 0, [⟨recordingFileName 0 ft, now, 0⟩]⟩,
                   manifestPath st.recordings_path id⟩) },
           saveManifest (createDir disk (recordingPath st.recordings_path id))
             (manifestPath st.recordings_path id)
             ⟨id, now, 0, [⟨recordingFileName 0 ft, now, 0⟩]⟩,
           recordingPath st.recordings_path id ++ "/" ++ recordingFileName 0 ft) := by
  rw [handle_connect, hg]
  simp only [Bool.false_eq_true, if_false, if_neg hdir, finishConnect]

theorem recordingInv_mapInsert (st : ManagerState) (id : Uuid) (v : OnGoingRecording)
    (hInv : RecordingInv st) (hmem : id ∈ st.active_recordings) :
    RecordingInv { st with ongoing_recordings := mapInsert st.ongoing_recordings id v } := by
  intro s
  simp only [mapFind_insert]
  by_cases hs : id = s
  · subst hs
    simpa using hmem
  · simp [hs, hInv s]

theorem recordingInv_connectInsert (st : ManagerState) (id : Uuid)
    (manifest : JrecManifest) (mp : String) (hInv : RecordingInv st) :
    RecordingInv { st with
      active_recordings := (activeInsert st.active_recordings id).1,
      ongoing_recordings :=
        (mapInsert st.ongoing_recordings id ⟨.Connected, manifest, mp⟩) } := by
  intro s
  simp only [mem_activeInsert, mapFind_insert]
  by_cases hs : s = id
  · subst hs
    simp
  · have h2 : ¬ id = s := fun h2 => hs h2.symm
    simp [hs, h2, hInv s]

theorem recordingInv_handle_connect (st : ManagerState) (disk : Disk) (id : Uuid)
    (ft : String) (now : Int) (st2 : ManagerState) (d2 : Disk) (p : String)
    (hInv : RecordingInv st)
    (h : handle_connect st disk id ft now = .ok (st2, d2, p)) :
    RecordingInv st2 := by
  cases hg : ((mapFind st.ongoing_recordings id).map (fun o => isConnected o.state)).getD false
  case true =>
    rw [handle_connect, if_pos hg] at h
    simp at h
  case false =>
  by_cases hdir : recordingPath st.recordings_path id ∈ disk.dirs
  · cases hread : readManifest disk (manifestPath st.recordings_path id) with
    | none =>
      rw [handle_connect_eq_readFail st disk id ft now hg hdir hread] at h
      simp at h
    | some m =>
      rw [handle_connect_eq_existing st disk id ft now m hg hdir hread] at h
      simp only [Except.ok.injEq, Prod.mk.injEq] at h
      rw [← h.1]
      exact recordingInv_connectInsert st id _ _ hInv
  · rw [handle_connect_eq_fresh st disk id ft now hg hdir] at h
    simp only [Except.ok.injEq, Prod.mk.injEq] at h
    rw [← h.1]
    exact recordingInv_connectInsert st id _ _ hInv

theorem recordingInv_handle_disconnect (st : ManagerState) (disk : Disk) (id : Uuid)
    (now : Int) (hInv : RecordingInv st) :
    RecordingInv (handle_disconnect st disk id now).1 := by
  cases hfind : mapFind st.ongoing_recordings id with
  | none => rw [handle_disconnect_eq_none st disk id now hfind]; exact hInv
  | some o =>
    cases hc : isConnected o.state with
    | false => rw [handle_disconnect_eq_notConnected st disk id now o hfind hc]; exact hInv
    | true =>
      have hmem : id ∈ st.active_recordings := (hInv id).mpr (by simp [hfind])
      cases hlast : o.manifest.files.getLast? with
      | none =>
        rw [handle_disconnect_eq_emptyFiles st disk id now o hfind hc hlast]
        exact recordingInv_mapInsert st id _ hInv hmem
      | some f =>
        rw [handle_disconnect_eq_connected st disk id now o f hfind hc hlast]
        exact recordingInv_mapInsert st id _ hInv hmem

theorem recordingInv_handle_remove (st : ManagerState) (id : Uuid) (now : Int)
    (hInv : RecordingInv st) :
    RecordingInv (handle_remove st id now) := by
  cases hfind : mapFind st.ongoing_recordings id with
  | none => rw [handle_remove_eq_none st id now hfind]; exact hInv
  | some o =>
    cases hstate : o.state with
    | Connected => rw [handle_remove_eq_connected st id now o hfind hstate]; exact hInv
    | LastSeen ts =>
      by_cases ht : now ≥ ts + DISCONNECTED_TTL_SECS - 1
      · rw [handle_remove_eq_expired st id now o ts hfind hstate ht]
        intro s
        simp only [mem_activeRemove, mapFind_erase]
        by_cases hs : s = id <;> simp [hs, hInv s]
      · rw [handle_remove_eq_notExpired st id now o ts hfind hstate ht]; exact hInv

theorem handle_disconnect_active_unchanged (st : ManagerState) (disk : Disk) (id : Uuid)
    (now : Int) :
    (handle_disconnect st disk id now).1.active_recordings = st.active_recordings := by
  cases hfind : mapFind st.ongoing_recordings id with
  | none => rw [handle_disconnect_eq_none st disk id now hfind]
  | some o =>
    cases hc : isConnected o.state with
    | false => rw [handle_disconnect_eq_notConnected st disk id now o hfind hc]
    | true =>
      cases hlast : o.manifest.files.getLast? with
      | none => rw [handle_disconnect_eq_emptyFiles st disk id now o hfind hc hlast]
      | some f => rw [handle_disconnect_eq_connected st disk id now o f hfind hc hlast]

theorem drain_active_unchanged (st : ManagerState) (disk : Disk) (id : Uuid) (now : Int) :
    (drain_disconnect_step st disk id now).1.active_recordings = st.active_recordings := by
  show (handle_disconnect st disk id now).1.active_recordings = st.active_recordings
  exact handle_disconnect_active_unchanged st disk id now

theorem drain_erases_ongoing (st : ManagerState) (disk : Disk) (id : Uuid) (now : Int) :
    mapFind (drain_disconnect_step st disk id now).1.ongoing_recordings id = none := by
  show mapFind (mapErase (handle_disconnect st disk id now).1.ongoing_recordings id) id = none
  simp [mapFind_erase]

theorem readManifest_save (d : Disk) (path : String) (m : JrecManifest) :
    readManifest (saveManifest d path m) path = some m := by
  simp [readManifest, saveManifest]

/-- C1, counterexample to the claim as stated: the post-shutdown drain of a
Disconnect message does not preserve the ActiveRecordings/ongoing_recordings
equivalence.  In the concrete state holding one Connected entry for id 1
(where the equivalence holds), one drain step for id 1 removes 1 from
`ongoing_recordings` but leaves `ActiveRecordings = {1}`. -/
theorem recording_inv_drain_cex :
    RecordingInv
      ⟨[(1, ⟨.Connected, ⟨1, 0, 0, [⟨"recording-0.webm", 0, 0⟩]⟩, "root/1/recording.json"⟩)],
       [1], "root"⟩ ∧
    ¬ RecordingInv
      (drain_disconnect_step
        ⟨[(1, ⟨.Connected, ⟨1, 0, 0, [⟨"recording-0.webm", 0, 0⟩]⟩, "root/1/recording.json"⟩)],
         [1], "root"⟩ ⟨[], []⟩ 1 50).1 := by
  constructor
  · intro s
    by_cases hs : s = 1
    · simp [mapFind, hs]
    · have h2 : ¬ (1 : Uuid) = s := fun h2 => hs h2.symm
      simp [mapFind, hs, h2]
  · intro h
    have heq : (drain_disconnect_step
        ⟨[(1, ⟨.Connected, ⟨1, 0, 0, [⟨"recording-0.webm", 0, 0⟩]⟩, "root/1/recording.json"⟩)],
         [1], "root"⟩ ⟨[], []⟩ 1 50).1 = ⟨[], [1], "root"⟩ := by decide
    rw [heq] at h
    have h1 := (h 1).mp (by simp)
    simp [mapFind] at h1

/-- C1 (amended): for every session id, the equivalence between membership in
the ActiveRecordings set and being a key of `ongoing_recordings` is preserved
by every fully processed Connect request, Disconnect request, and eviction
tick; the post-shutdown drain of a Disconnect message, however, removes the
id from `ongoing_recordings` while leaving ActiveRecordings unchanged, so the
equivalence fails afterwards for a drained id that was present in the map. -/
theorem recording_inv_preservation (st : ManagerState) (disk : Disk) (id : Uuid)
    (ft : String) (now : Int) (hInv : RecordingInv st) :
    (∀ st2 d2 p, handle_connect st disk id ft now = .ok (st2, d2, p) → RecordingInv st2) ∧
    RecordingInv (handle_disconnect st disk id now).1 ∧
    RecordingInv (handle_remove st id now) ∧
    ((drain_disconnect_step st disk id now).1.active_recordings = st.active_recordings ∧
     mapFind (drain_disconnect_step st disk id now).1.ongoing_recordings id = none) :=
  ⟨fun st2 d2 p h => recordingInv_handle_connect st disk id ft now st2 d2 p hInv h,
   recordingInv_handle_disconnect st disk id now hInv,
   recordingInv_handle_remove st id now hInv,
   drain_active_unchanged st disk id now, drain_erases_ongoing st disk id now⟩

/-- Witness for the amended C1 theorem at a concrete state. -/
theorem recording_inv_preservation_witness :
    RecordingInv (handle_remove ⟨[(2, ⟨.LastSeen 0, ⟨2, 0, 0, []⟩, "p"⟩)], [2], "r"⟩ 2 20) :=
  (recording_inv_preservation ⟨[(2, ⟨.LastSeen 0, ⟨2, 0, 0, []⟩, "p"⟩)], [2], "r"⟩ ⟨[], []⟩
    2 "webm" 20
    (by
      intro s
      by_cases hs : s = 2
      · simp [mapFind, hs]
      · have h2 : ¬ (2 : Uuid) = s := fun h2 => hs h2.symm
        simp [mapFind, hs, h2])).2.2.1

/-- C2: a Connect for an id whose `ongoing_recordings` entry is in state
Connected fails with the error "concurrent recording for the same session is
not supported"; the error result carries no new state, and indeed after one
fresh Connect (whose stored manifest has exactly one file) a second Connect
for the same id fails with that error while the manifest on disk still holds
exactly one file; a Connect for an id that is absent or in LastSeen state is
never rejected with this error. -/
theorem connect_concurrent_rejection (st : ManagerState) (disk : Disk) (id : Uuid)
    (ft : String) (now now2 : Int) :
    (∀ o, mapFind st.ongoing_recordings id = some o → o.state = .Connected →
      handle_connect st disk id ft now =
        .error "concurrent recording for the same session is not supported") ∧
    (∀ st1 d1 p, recordingPath st.recordings_path id ∉ disk.dirs →
      handle_connect st disk id ft now = .ok (st1, d1, p) →
      (handle_connect st1 d1 id ft now2 =
        .error "concurrent recording for the same session is not supported" ∧
       ∃ m, readManifest d1 (manifestPath st1.recordings_path id) = some m ∧
         m.files.length = 1)) ∧
    ((mapFind st.ongoing_recordings id = none ∨
      (∃ o ts, mapFind st.ongoing_recordings id = some o ∧ o.state = .LastSeen ts)) →
      handle_connect st disk id ft now ≠
        .error "concurrent recording for the same session is not supported") := by
  refine ⟨?_, ?_, ?_⟩
  · intro o hfind hstate
    exact handle_connect_eq_concurrent st disk id ft now o hfind (by rw [hstate]; rfl)
  · intro st1 d1 p hdir hok
    cases hg : ((mapFind st.ongoing_recordings id).map (fun o => isConnected o.state)).getD false
    case true =>
      rw [handle_connect, if_pos hg] at hok
      simp at hok
    case false =>
    rw [handle_connect_eq_fresh st disk id ft now hg hdir] at hok
    simp only [Except.ok.injEq, Prod.mk.injEq] at hok
    rw [← hok.1, ← hok.2.1]
    constructor
    · exact handle_connect_eq_concurrent _ _ id ft now2
        ⟨.Connected, ⟨id, now, 0, [⟨recordingFileName 0 ft, now, 0⟩]⟩,
         manifestPath st.recordings_path id⟩
        (by simp [mapFind_insert]) rfl
    · exact ⟨⟨id, now, 0, [⟨recordingFileName 0 ft, now, 0⟩]⟩,
        readManifest_save _ _ _, rfl⟩
  · intro hcase heq
    have hg : ((mapFind st.ongoing_recordings id).map (fun o => isConnected o.state)).getD false
        = false := by
      rcases hcase with hnone | ⟨o, ts, hfind, hstate⟩
      · simp [hnone]
      · simp [hfind, hstate, isConnected]
    by_cases hdir : recordingPath st.recordings_path id ∈ disk.dirs
    · cases hread : readManifest disk (manifestPath st.recordings_path id) with
      | none =>
        rw [handle_connect_eq_readFail st disk id ft now hg hdir hread] at heq
        simp only [Except.error.injEq] at heq
        exact absurd heq (by decide)
      | some m =>
        rw [handle_connect_eq_existing st disk id ft now m hg hdir hread] at heq
        simp at heq
    · rw [handle_connect_eq_fresh st disk id ft now hg hdir] at heq
      simp at heq

/-- Witness for the C2 theorem: the rejection at a concrete Connected state,
plus the non-rejection at a concrete absent state. -/
theorem connect_concurrent_rejection_witness :
    handle_connect
      ⟨[(7, ⟨.Connected, ⟨7, 1000, 0, [⟨"recording-0.webm", 1000, 0⟩]⟩,
          "root/7/recording.json"⟩)], [7], "root"⟩
      ⟨["root/7"], [("root/7/recording.json", ⟨7, 1000, 0, [⟨"recording-0.webm", 1000, 0⟩]⟩)]⟩
      7 "webm" 1005 =
      .error "concurrent recording for the same session is not supported" ∧
    handle_connect ⟨[], [], "root"⟩ ⟨[], []⟩ 7 "webm" 1000 ≠
      .error "concurrent recording for the same session is not supported" :=
  ⟨(connect_concurrent_rejection _ _ 7 "webm" 1005 0).1
      ⟨.Connected, ⟨7, 1000, 0, [⟨"recording-0.webm", 1000, 0⟩]⟩, "root/7/recording.json"⟩
      rfl rfl,
   (connect_concurrent_rejection ⟨[], [], "root"⟩ ⟨[], []⟩ 7 "webm" 1000 0).2.2 (Or.inl rfl)⟩

/-- C3: for an id whose entry is Connected (with a nonempty manifest file
list, as every manifest produced by `handle_connect` has), Disconnect at unix
time `now` succeeds: it transitions the entry state to `LastSeen now`, sets
the last file entry's duration to `now` minus that file's start time, sets
the manifest duration to `now` minus the manifest's start time, rewrites the
manifest at its path on disk, and the id remains in both ActiveRecordings
(which is unchanged) and `ongoing_recordings`. -/
theorem disconnect_connected_spec (st : ManagerState) (disk : Disk) (id : Uuid) (now : Int)
    (o : OnGoingRecording) (f : JrecFile)
    (hfind : mapFind st.ongoing_recordings id = some o)
    (hconn : o.state = .Connected)
    (hlast : o.manifest.files.getLast? = some f) :
    handle_disconnect st disk id now =
      ({ st with ongoing_recordings :=
          (mapInsert st.ongoing_recordings id
            ⟨.LastSeen now,
             ⟨o.manifest.session_id, o.manifest.start_time, now - o.manifest.start_time,
              o.manifest.files.dropLast ++ [⟨f.file_name, f.start_time, now - f.start_time⟩]⟩,
             o.manifest_path⟩) },
       saveManifest disk o.manifest_path
         ⟨o.manifest.session_id, o.manifest.start_time, now - o.manifest.start_time,
          o.manifest.files.dropLast ++ [⟨f.file_name, f.start_time, now - f.start_time⟩]⟩,
       none) ∧
    (handle_disconnect st disk id now).1.active_recordings = st.active_recordings ∧
    (mapFind (handle_disconnect st disk id now).1.ongoing_recordings id).isSome = true := by
  have hc : isConnected o.state = true := by rw [hconn]; rfl
  refine ⟨handle_disconnect_eq_connected st disk id now o f hfind hc hlast,
          handle_disconnect_active_unchanged st disk id now, ?_⟩
  rw [handle_disconnect_eq_connected st disk id now o f hfind hc hlast]
  simp [mapFind_insert]

/-- Witness for the C3 theorem at a concrete Connected state. -/
theorem disconnect_connected_spec_witness :
    (mapFind (handle_disconnect
      ⟨[(7, ⟨.Connected, ⟨7, 1000, 0, [⟨"recording-0.webm", 1000, 0⟩]⟩,
          "root/7/recording.json"⟩)], [7], "root"⟩
      ⟨["root/7"], [("root/7/recording.json", ⟨7, 1000, 0, [⟨"recording-0.webm", 1000, 0⟩]⟩)]⟩
      7 1030).1.ongoing_recordings 7).isSome = true :=
  (disconnect_connected_spec
    ⟨[(7, ⟨.Connected, ⟨7, 1000, 0, [⟨"recording-0.webm", 1000, 0⟩]⟩,
        "root/7/recording.json"⟩)], [7], "root"⟩
    ⟨["root/7"], [("root/7/recording.json", ⟨7, 1000, 0, [⟨"recording-0.webm", 1000, 0⟩]⟩)]⟩
    7 1030
    ⟨.Connected, ⟨7, 1000, 0, [⟨"recording-0.webm", 1000, 0⟩]⟩, "root/7/recording.json"⟩
    ⟨"recording-0.webm", 1000, 0⟩ rfl rfl rfl).2.2

/-- File-name indices are dense and positions match indices: the file at
position `i` is named `recording-{i}.{e}` for some extension `e`. -/
def filesIndexed (fs : List JrecFile) : Prop :=
  ∀ i : Fin fs.length, ∃ e, (fs.get i).file_name = recordingFileName i.1 e

theorem filesIndexed_append (fs : List JrecFile) (t : JrecFile) (e : String)
    (ht : t.file_name = recordingFileName fs.length e)
    (h : filesIndexed fs) : filesIndexed (fs ++ [t]) := by
  intro i
  have hi2 : i.1 < fs.length + 1 := by
    have h2 := i.2
    simpa using h2
  rcases Nat.lt_or_ge i.1 fs.length with hlt | hge
  · obtain ⟨e2, he2⟩ := h ⟨i.1, hlt⟩
    refine ⟨e2, ?_⟩
    rw [List.get_eq_getElem] at he2 ⊢
    rw [List.getElem_append_left hlt]
    exact he2
  · have hi : i.1 = fs.length := by omega
    refine ⟨e, ?_⟩
    rw [List.get_eq_getElem]
    have hget : (fs ++ [t]).get i = t := by
      rw [List.get_eq_getElem]
      simp [hi]
    rw [List.get_eq_getElem] at hget
    rw [hget, ht, hi]

theorem filesIndexed_single (t : JrecFile) (e : String)
    (ht : t.file_name = recordingFileName 0 e) : filesIndexed [t] := by
  intro i
  have hi : i.1 = 0 := by
    have h2 : i.1 < 1 := by
      have h3 := i.2
      simp only [List.length_singleton] at h3
      exact h3
    omega
  exact ⟨e, by rw [List.get_eq_getElem]; simp [hi, ht]⟩

/-- C4: every successful Connect(id, ext) behaves as follows.  If the session
directory already exists, the manifest read from disk gains exactly one
appended file entry named `recording-{len(files)}.{ext}` with start time
`now` and duration 0, the manifest is rewritten to disk, and the path of the
new file is returned; otherwise the directory is created and an initial
manifest with the single entry `recording-0.{ext}` (duration 0, manifest
start time equal to the file's start time) is written, returning that file's
path.  Existing entries are only ever appended to (never removed, reordered
or renamed), so dense 0..N-1 indices matching positions are preserved. -/
theorem connect_ok_spec (st : ManagerState) (disk : Disk) (id : Uuid) (ft : String)
    (now : Int) (st2 : ManagerState) (d2 : Disk) (p : String)
    (hok : handle_connect st disk id ft now = .ok (st2, d2, p)) :
    (recordingPath st.recordings_path id ∈ disk.dirs →
      ∃ m, readManifest disk (manifestPath st.recordings_path id) = some m ∧
        p = recordingPath st.recordings_path id ++ "/" ++
              recordingFileName m.files.length ft ∧
        readManifest d2 (manifestPath st.recordings_path id) =
          some ⟨m.session_id, m.start_time, m.duration,
                m.files ++ [⟨recordingFileName m.files.length ft, now, 0⟩]⟩ ∧
        mapFind st2.ongoing_recordings id =
          some ⟨.Connected,
                ⟨m.session_id, m.start_time, m.duration,
                 m.files ++ [⟨recordingFileName m.files.length ft, now, 0⟩]⟩,
                manifestPath st.recordings_path id⟩ ∧
        (filesIndexed m.files →
          filesIndexed (m.files ++ [⟨recordingFileName m.files.length ft, now, 0⟩]))) ∧
    (recordingPath st.recordings_path id ∉ disk.dirs →
      p = recordingPath st.recordings_path id ++ "/" ++ recordingFileName 0 ft ∧
      readManifest d2 (manifestPath st.recordings_path id) =
        some ⟨id, now, 0, [⟨recordingFileName 0 ft, now, 0⟩]⟩ ∧
      recordingPath st.recordings_path id ∈ d2.dirs ∧
      mapFind st2.ongoing_recordings id =
        some ⟨.Connected, ⟨id, now, 0, [⟨recordingFileName 0 ft, now, 0⟩]⟩,
              manifestPath st.recordings_path id⟩ ∧
      filesIndexed [⟨recordingFileName 0 ft, now, 0⟩]) := by
  cases hg : ((mapFind st.ongoing_recordings id).map (fun o => isConnected o.state)).getD false
  case true =>
    rw [handle_connect, if_pos hg] at hok
    simp at hok
  case false =>
  constructor
  · intro hdir
    cases hread : readManifest disk (manifestPath st.recordings_path id) with
    | none =>
      rw [handle_connect_eq_readFail st disk id ft now hg hdir hread] at hok
      simp at hok
    | some m =>
      rw [handle_connect_eq_existing st disk id ft now m hg hdir hread] at hok
      simp only [Except.ok.injEq, Prod.mk.injEq] at hok
      refine ⟨m, rfl, hok.2.2.symm, ?_, ?_, ?_⟩
      · rw [← hok.2.1]
        exact readManifest_save _ _ _
      · rw [← hok.1]
        simp [mapFind_insert]
      · intro hdense
        exact filesIndexed_append m.files _ ft rfl hdense
  · intro hdir
    rw [handle_connect_eq_fresh st disk id ft now hg hdir] at hok
    simp only [Except.ok.injEq, Prod.mk.injEq] at hok
    refine ⟨hok.2.2.symm, ?_, ?_, ?_, ?_⟩
    · rw [← hok.2.1]
      exact readManifest_save _ _ _
    · rw [← hok.2.1]
      show recordingPath st.recordings_path id ∈
        (createDir disk (recordingPath st.recordings_path id)).dirs
      simp [createDir]
    · rw [← hok.1]
      simp [mapFind_insert]
    · exact filesIndexed_single _ ft rfl

/-- Witness for the C4 theorem: the fresh-directory branch at a concrete
input. -/
theorem connect_ok_spec_witness :
    "root/7/recording-0.webm" = recordingPath "root" 7 ++ "/" ++ recordingFileName 0 "webm" ∧
    readManifest
      ⟨["root/7"], [("root/7/recording.json", ⟨7, 1000, 0, [⟨"recording-0.webm", 1000, 0⟩]⟩)]⟩
      (manifestPath "root" 7) =
      some ⟨7, 1000, 0, [⟨recordingFileName 0 "webm", 1000, 0⟩]⟩ :=
  ⟨((connect_ok_spec ⟨[], [], "root"⟩ ⟨[], []⟩ 7 "webm" 1000
      ⟨[(7, ⟨.Connected, ⟨7, 1000, 0, [⟨"recording-0.webm", 1000, 0⟩]⟩,
          "root/7/recording.json"⟩)], [7], "root"⟩
      ⟨["root/7"], [("root/7/recording.json", ⟨7, 1000, 0, [⟨"recording-0.webm", 1000, 0⟩]⟩)]⟩
      "root/7/recording-0.webm" rfl).2 (by simp)).1,
   ((connect_ok_spec ⟨[], [], "root"⟩ ⟨[], []⟩ 7 "webm" 1000
      ⟨[(7, ⟨.Connected, ⟨7, 1000, 0, [⟨"recording-0.webm", 1000, 0⟩]⟩,
          "root/7/recording.json"⟩)], [7], "root"⟩
      ⟨["root/7"], [("root/7/recording.json", ⟨7, 1000, 0, [⟨"recording-0.webm", 1000, 0⟩]⟩)]⟩
      "root/7/recording-0.webm" rfl).2 (by simp)).2.1⟩

/-- C5: an eviction tick for `id` at unix time `now` removes the id from both
`ongoing_recordings` and ActiveRecordings exactly when the entry exists in
state `LastSeen ts` with `now ≥ ts + DISCONNECTED_TTL_SECS - 1` (that is,
`now ≥ ts + 9`, one second of slack below the nominal 10-second TTL); in
every other case (id absent, state Connected, or too early) no state
changes. -/
theorem remove_spec (st : ManagerState) (id : Uuid) (now : Int) :
    ((∃ o ts, mapFind st.ongoing_recordings id = some o ∧ o.state = .LastSeen ts ∧
        now ≥ ts + DISCONNECTED_TTL_SECS - 1) →
      handle_remove st id now =
        { st with active_recordings := activeRemove st.active_recordings id,
                  ongoing_recordings := mapErase st.ongoing_recordings id }) ∧
    (¬ (∃ o ts, mapFind st.ongoing_recordings id = some o ∧ o.state = .LastSeen ts ∧
        now ≥ ts + DISCONNECTED_TTL_SECS - 1) →
      handle_remove st id now = st) := by
  constructor
  · rintro ⟨o, ts, hfind, hstate, ht⟩
    exact handle_remove_eq_expired st id now o ts hfind hstate ht
  · intro hneg
    cases hfind : mapFind st.ongoing_recordings id with
    | none => exact handle_remove_eq_none st id now hfind
    | some o =>
      cases hstate : o.state with
      | Connected => exact handle_remove_eq_connected st id now o hfind hstate
      | LastSeen ts =>
        exact handle_remove_eq_notExpired st id now o ts hfind hstate
          (fun ht => hneg ⟨o, ts, hfind, hstate, ht⟩)

/-- Witness for the C5 theorem: removal fires at `ts + 9` and not at
`ts + 8`, at a concrete state. -/
theorem remove_spec_witness :
    handle_remove ⟨[(7, ⟨.LastSeen 1030, ⟨7, 1000, 30, []⟩, "p"⟩)], [7], "root"⟩ 7 1039 =
      { (⟨[(7, ⟨.LastSeen 1030, ⟨7, 1000, 30, []⟩, "p"⟩)], [7], "root"⟩ : ManagerState) with
        active_recordings := activeRemove [7] 7,
        ongoing_recordings := mapErase [(7, ⟨.LastSeen 1030, ⟨7, 1000, 30, []⟩, "p"⟩)] 7 } ∧
    handle_remove ⟨[(7, ⟨.LastSeen 1030, ⟨7, 1000, 30, []⟩, "p"⟩)], [7], "root"⟩ 7 1038 =
      ⟨[(7, ⟨.LastSeen 1030, ⟨7, 1000, 30, []⟩, "p"⟩)], [7], "root"⟩ :=
  ⟨(remove_spec ⟨[(7, ⟨.LastSeen 1030, ⟨7, 1000, 30, []⟩, "p"⟩)], [7], "root"⟩ 7 1039).1
      ⟨⟨.LastSeen 1030, ⟨7, 1000, 30, []⟩, "p"⟩, 1030, rfl, rfl, by decide⟩,
   (remove_spec ⟨[(7, ⟨.LastSeen 1030, ⟨7, 1000, 30, []⟩, "p"⟩)], [7], "root"⟩ 7 1038).2
      (by
        rintro ⟨o, ts, hfind, hstate, ht⟩
        simp [mapFind] at hfind
        subst hfind
        simp at hstate
        simp [DISCONNECTED_TTL_SECS] at ht
        omega)⟩

/-- C6, counterexample to the claim as stated: at a concrete invocation with
`session_id = 3` and `claims.jet_aid = 4`, the run fails immediately and no
Connect request is sent, but no graceful stream shutdown is performed either:
the `bail!` returns before any action is taken on the client stream. -/
theorem clientPushRun_mismatch_cex :
    (clientPushRun 3 ⟨4⟩ (some "file") true .finished).2 = false ∧
    RunEvent.connectRequested ∉ (clientPushRun 3 ⟨4⟩ (some "file") true .finished).1 ∧
    RunEvent.streamShutdown ∉ (clientPushRun 3 ⟨4⟩ (some "file") true .finished).1 := by
  decide

/-- C6 (amended): whenever `session_id ≠ claims.jet_aid`, `ClientPush::run`
fails immediately with an error: no Connect request is sent to the recording
manager and no action at all is taken on the client stream (in particular no
graceful shutdown; the stream is simply dropped). -/
theorem clientPushRun_mismatch (session_id : Uuid) (claims : JrecTokenClaims)
    (connectResult : Option String) (openOk : Bool) (outcome : CopyOutcome)
    (h : session_id ≠ claims.jet_aid) :
    clientPushRun session_id claims connectResult openOk outcome = ([], false) := by
  simp [clientPushRun, h]

/-- Witness for the amended C6 theorem at a concrete mismatching input. -/
theorem clientPushRun_mismatch_witness :
    clientPushRun 3 ⟨4⟩ none true CopyOutcome.finished = ([], false) :=
  clientPushRun_mismatch 3 ⟨4⟩ none true CopyOutcome.finished (by decide)

/-- C7, counterexample to the claim as stated: the serialized `session`
object of a concrete session.started message has the snake_case keys
`association_id` and `start_timestamp`; in particular there is no
`associationId` field.  (`SubscriberSessionInfo` derives `Serialize` with no
`rename_all` attribute, unlike the manifest types of recording.rs.) -/
theorem serialized_session_keys_cex :
    ((serializeMessage (Message.session_started ⟨7, 100⟩)).get "session").map Json.keys =
      some ["association_id", "start_timestamp"] ∧
    ((serializeMessage (Message.session_started ⟨7, 100⟩)).get "session").map
        (fun j => j.get "associationId") = some none :=
  ⟨rfl, rfl⟩

/-- C7 (amended): for every session.started and session.ended message, the
serialized JSON body carries a `session` object whose field names are the
snake_case Rust identifiers: `association_id` for the session UUID and
`start_timestamp` for the start time. -/
theorem serialized_session_keys (s : SubscriberSessionInfo) (now : Int) :
    ((serializeMessage (Message.session_started s)).get "session").map Json.keys =
      some ["association_id", "start_timestamp"] ∧
    ((serializeMessage (Message.session_ended now s)).get "session").map Json.keys =
      some ["association_id", "start_timestamp"] :=
  ⟨rfl, rfl⟩

/-- C10: a session.started message is stamped with the session's
`start_timestamp` (not the construction time), whereas session.ended and
session.list messages are stamped with the current time at construction
(`Utc::now()`, the explicit `now` parameter of the model). -/
theorem message_timestamps (s : SubscriberSessionInfo) (now : Int)
    (xs : List SubscriberSessionInfo) :
    (Message.session_started s).timestamp = s.start_timestamp ∧
    (Message.session_ended now s).timestamp = now ∧
    (Message.session_list now xs).timestamp = now :=
  ⟨rfl, rfl, rfl⟩

/-- Strict order underlying `cmpDisconnectedTtl`: `a` is heap-smaller than
`b`. -/
def dtLT (a b : DisconnectedTtl) : Prop := cmpDisconnectedTtl a b = .lt

theorem dtLT_iff (a b : DisconnectedTtl) :
    dtLT a b ↔ b.deadline < a.deadline ∨ (a.deadline = b.deadline ∧ a.id < b.id) := by
  unfold dtLT cmpDisconnectedTtl
  rcases Nat.lt_trichotomy a.deadline b.deadline with h | h | h
  · rw [Nat.compare_eq_lt.mpr h]
    constructor
    · intro h2
      simp at h2
    · intro h2
      exact absurd h2 (by omega)
  · rw [Nat.compare_eq_eq.mpr h]
    constructor
    · intro h2
      rw [Nat.compare_eq_lt] at h2
      exact Or.inr ⟨h, h2⟩
    · intro h2
      rw [Nat.compare_eq_lt]
      omega
  · rw [Nat.compare_eq_gt.mpr h]
    constructor
    · intro h2
      exact Or.inl h
    · intro h2
      rfl

theorem dtLT_trans (a b c : DisconnectedTtl) (h1 : dtLT a b) (h2 : dtLT b c) : dtLT a c := by
  rw [dtLT_iff] at h1 h2 ⊢
  omega

theorem dtLT_of_dtLT_of_not (a b r : DisconnectedTtl) (h1 : ¬ dtLT a b) (h2 : dtLT r b) :
    dtLT r a := by
  rw [dtLT_iff] at h1 h2 ⊢
  omega

theorem foldlMax_spec (l : List DisconnectedTtl) (a : DisconnectedTtl) :
    (l.foldl (fun best y => if cmpDisconnectedTtl best y = .lt then y else best) a) ∈ a :: l ∧
    ∀ y ∈ a :: l,
      ¬ dtLT (l.foldl (fun best y => if cmpDisconnectedTtl best y = .lt then y else best) a) y := by
  induction l generalizing a with
  | nil =>
    refine ⟨by simp, ?_⟩
    intro y hy
    rw [List.mem_singleton] at hy
    subst hy
    simp only [List.foldl_nil]
    rw [dtLT_iff]
    omega
  | cons b l ih =>
    simp only [List.foldl_cons]
    by_cases hab : cmpDisconnectedTtl a b = .lt
    · rw [if_pos hab]
      obtain ⟨ihmem, ihmax⟩ := ih b
      constructor
      · rcases List.mem_cons.mp ihmem with hr | hr
        · rw [hr]
          simp
        · exact List.mem_cons_of_mem _ (List.mem_cons_of_mem _ hr)
      · intro y hy
        rcases List.mem_cons.mp hy with hya | hy2
        · subst hya
          intro hlt
          exact ihmax b (by simp) (dtLT_trans _ y b hlt hab)
        · rcases List.mem_cons.mp hy2 with hyb | hyl
          · subst hyb
            exact ihmax y (by simp)
          · exact ihmax y (List.mem_cons_of_mem _ hyl)
    · rw [if_neg hab]
      obtain ⟨ihmem, ihmax⟩ := ih a
      constructor
      · rcases List.mem_cons.mp ihmem with hr | hr
        · rw [hr]
          simp
        · exact List.mem_cons_of_mem _ (List.mem_cons_of_mem _ hr)
      · intro y hy
        rcases List.mem_cons.mp hy with hya | hy2
        · subst hya
          exact ihmax y (by simp)
        · rcases List.mem_cons.mp hy2 with hyb | hyl
          · subst hyb
            intro hlt
            exact ihmax a (by simp) (dtLT_of_dtLT_of_not a y _ hab hlt)
          · exact ihmax y (List.mem_cons_of_mem _ hyl)

/-- C8, counterexample to the claim as stated: with two queue entries sharing
deadline 5 and ids 0 and 1, the heap pops the entry with id 1, although the
entry with the strictly smaller UUID 0 is present — the tie-break is by UUID
descending, not ascending, because `Ord for DisconnectedTtl` reverses the
deadline comparison but not the UUID comparison fed to the max-heap. -/
theorem heapPop_tiebreak_cex :
    heapPop [⟨5, 0⟩, ⟨5, 1⟩] = some ⟨5, 1⟩ ∧
    (⟨5, 0⟩ : DisconnectedTtl) ∈ [(⟨5, 0⟩ : DisconnectedTtl), ⟨5, 1⟩] ∧ (0 : Uuid) < 1 := by
  decide

/-- C8 (amended): popping the disconnect TTL queue always yields an entry
with the earliest deadline; among entries with equal deadlines, the entry
with the largest UUID (UUID descending order) is popped first. -/
theorem heapPop_spec (l : List DisconnectedTtl) (x : DisconnectedTtl)
    (h : heapPop l = some x) :
    x ∈ l ∧ ∀ y ∈ l, x.deadline ≤ y.deadline ∧ (y.deadline = x.deadline → y.id ≤ x.id) := by
  cases l with
  | nil => simp [heapPop] at h
  | cons a rest =>
    simp only [heapPop, Option.some.injEq] at h
    subst h
    obtain ⟨hmem, hmax⟩ := foldlMax_spec rest a
    refine ⟨hmem, fun y hy => ?_⟩
    have h2 := hmax y hy
    rw [dtLT_iff] at h2
    constructor
    · omega
    · intro hd
      omega

/-- Witness for the amended C8 theorem at a concrete queue. -/
theorem heapPop_spec_witness :
    (⟨4, 9⟩ : DisconnectedTtl) ∈ [(⟨5, 3⟩ : DisconnectedTtl), ⟨4, 9⟩] ∧
    ∀ y ∈ [(⟨5, 3⟩ : DisconnectedTtl), ⟨4, 9⟩],
      (4 : Nat) ≤ y.deadline ∧ (y.deadline = 4 → y.id ≤ 9) :=
  heapPop_spec [⟨5, 3⟩, ⟨4, 9⟩] ⟨4, 9⟩ rfl

/-- C9: `send_message` classifies each delivery attempt as follows: a network
or IO error on the POST itself is permanent (no retry); a 2xx/3xx response
succeeds and stops the loop; a 4xx response is a permanent error with no
further attempt; a 5xx response is transient, and the loop then sleeps for
the error's Retry-After value when present, otherwise for the next value of
the exponential backoff schedule (configured with initial interval 3 s,
multiplier 1.75 and maximum elapsed time 3 minutes); once the schedule is
exhausted the transient error is returned. -/
theorem send_message_spec (c : Nat) (e : String) (d : Nat)
    (ops : Nat → Option BackoffError) (backoff : Nat → Option Nat)
    (attempts : Nat → AttemptOutcome) (attempt bidx fuel : Nat) :
    sendOp .netError = some (.permanent "Failed to post message at the subscriber URL") ∧
    (200 ≤ c → c ≤ 399 → sendOp (.status c) = none) ∧
    (400 ≤ c → c ≤ 499 →
      sendOp (.status c) = some (.permanent "Subscriber responded with a client error status")) ∧
    (500 ≤ c → c ≤ 599 →
      sendOp (.status c) =
        some (.transient "Subscriber responded with a server error status" none)) ∧
    (ops attempt = none → sendLoop ops backoff attempt bidx (fuel + 1) = some (.ok [])) ∧
    (ops attempt = some (.permanent e) →
      sendLoop ops backoff attempt bidx (fuel + 1) = some (.error e)) ∧
    (ops attempt = some (.transient e (some d)) →
      sendLoop ops backoff attempt bidx (fuel + 1) =
        (sendLoop ops backoff (attempt + 1) bidx fuel).map (prependDelay d)) ∧
    (ops attempt = some (.transient e none) → backoff bidx = some d →
      sendLoop ops backoff attempt bidx (fuel + 1) =
        (sendLoop ops backoff (attempt + 1) (bidx + 1) fuel).map (prependDelay d)) ∧
    (ops attempt = some (.transient e none) → backoff bidx = none →
      sendLoop ops backoff attempt bidx (fuel + 1) = some (.error e)) ∧
    (attempts 0 = .netError →
      send_message attempts backoff (fuel + 1) =
        some (.error "Failed to post message at the subscriber URL")) ∧
    RETRY_INITIAL_INTERVAL = 3 ∧ RETRY_MULTIPLIER = 7 / 4 ∧ RETRY_MAX_ELAPSED_TIME = 180 := by
  refine ⟨rfl, ?_, ?_, ?_, ?_, ?_, ?_, ?_, ?_, ?_, rfl, rfl, rfl⟩
  · intro h1 h2
    simp only [sendOp]
    rw [if_neg (by omega), if_neg (by omega)]
  · intro h1 h2
    simp only [sendOp]
    rw [if_pos (by omega)]
  · intro h1 h2
    simp only [sendOp]
    rw [if_neg (by omega), if_pos (by omega)]
  · intro h
    rw [sendLoop, h]
  · intro h
    rw [sendLoop, h]
  · intro h
    rw [sendLoop, h]
  · intro h hb
    rw [sendLoop, h, hb]
  · intro h hb
    rw [sendLoop, h, hb]
  · intro h
    rw [send_message, sendLoop, h]
    rfl

/-- Witness for the C9 theorem at concrete status codes and a concrete
failing POST. -/
theorem send_message_spec_witness :
    sendOp (.status 204) = none ∧
    sendOp (.status 404) =
      some (.permanent "Subscriber responded with a client error status") ∧
    sendOp (.status 503) =
      some (.transient "Subscriber responded with a server error status" none) ∧
    send_message (fun _ => .netError) (fun _ => some 3) 5 =
      some (.error "Failed to post message at the subscriber URL") :=
  ⟨(send_message_spec 204 "" 0 (fun _ => none) (fun _ => none) (fun _ => .netError)
      0 0 4).2.1 (by decide) (by decide),
   (send_message_spec 404 "" 0 (fun _ => none) (fun _ => none) (fun _ => .netError)
      0 0 4).2.2.1 (by decide) (by decide),
   (send_message_spec 503 "" 0 (fun _ => none) (fun _ => none) (fun _ => .netError)
      0 0 4).2.2.2.1 (by decide) (by decide),
   (send_message_spec 0 "" 0 (fun _ => none) (fun _ => some 3) (fun _ => .netError)
      0 0 4).2.2.2.2.2.2.2.2.2.1 rfl⟩

end Gateway
